import Mathlib

/-!
Verification of `tools/configure_icu.py` (ChakraCore's ICU setup script).

The script is Python 2.  We shallowly embed the pure decision logic of its
functions over `String`/`List Char`:

* `get_sources` — parse a `Makefile.in` fragment for the `OBJECTS = ...`
  list and resolve each object token to a `.cpp`/`.c` sibling on disk;
* `get_headers` — list the `.h` entries of a directory minus an ignore list;
* `create_msvc_props` — of which we model the version-splitting that
  produces the `IcuVersionMajor`/`IcuVersionMinor` fields;
* `download_icu` — of which we model the checksum-verification tail
  (manifest line matching and MD5 comparison), with the downloaded bytes'
  digest and the fetched manifest text as inputs.

File-system facts (`os.path.isfile`, `os.path.isdir`, `os.listdir`) and the
file's line sequence are passed in as explicit parameters.  `os.path`
functions are modelled with POSIX semantics.  Failures are explicit:
`PyErr.exception` models `raise Exception(msg)` with a single message,
`PyErr.exceptionArgs` an `Exception` built from several arguments,
`PyErr.typeError` a `TypeError` raised by the `%` operator itself, and
`PyErr.indexError` an out-of-range string index.
-/

/-- Outcomes of the Python code's failure paths. -/
inductive PyErr where
  | exception (msg : String)
  | exceptionArgs (msgs : List String)
  | typeError (msg : String)
  | indexError
deriving Repr, DecidableEq

/-! ## Python string primitives -/

/-- Number of `%s` placeholders in a format string (the script's format
strings contain no other conversions and no `%%`). -/
def countPercentS : List Char → Nat
  | [] => 0
  | [_] => 0
  | c :: d :: rest =>
    if c = '%' ∧ d = 's' then countPercentS rest + 1
    else countPercentS (d :: rest)

/-- Substitute the first `%s` placeholder by `arg`. -/
def substPercentS (arg : String) : List Char → List Char
  | [] => []
  | [c] => [c]
  | c :: d :: rest =>
    if c = '%' ∧ d = 's' then arg.data ++ rest
    else c :: substPercentS arg (d :: rest)

/-- Python 2 semantics of `fmt % arg` for a single string argument `arg`:
with exactly one placeholder it substitutes; with more placeholders it
raises `TypeError: not enough arguments for format string`; with none it
raises `TypeError: not all arguments converted during string formatting`. -/
def pyPercent1 (fmt arg : String) : Except PyErr String :=
  match countPercentS fmt.data with
  | 0 => .error (.typeError "not all arguments converted during string formatting")
  | 1 => .ok ⟨substPercentS arg fmt.data⟩
  | _ => .error (.typeError "not enough arguments for format string")

/-- Models `raise Exception(fmt % arg)`: evaluating `fmt % arg` may itself
raise before the `Exception` is built. -/
def raiseExc1 (fmt arg : String) : PyErr :=
  match pyPercent1 fmt arg with
  | .ok m => .exception m
  | .error e => e

/-- Models `raise Exception(fmt % arg, extra)` exactly as written in the
script: the `%` operator binds tighter than the argument comma, so it is
applied to `arg` alone, and only if that succeeds does `Exception` receive
the two arguments `(fmt % arg, extra)`. -/
def raiseExc2 (fmt arg extra : String) : PyErr :=
  match pyPercent1 fmt arg with
  | .ok m => .exceptionArgs [m, extra]
  | .error e => e

/-- Characters treated as whitespace by `str.strip()`/`str.split()`
(restricted to the ASCII whitespace that can occur in these inputs). -/
def trimList (l : List Char) : List Char :=
  ((l.dropWhile Char.isWhitespace).reverse.dropWhile Char.isWhitespace).reverse

/-- Python `s.strip()`. -/
def pyStrip (s : String) : String := ⟨trimList s.data⟩

/-- Python `s[:n]` for `n ≥ 0`. -/
def pyTake (n : Nat) (s : String) : String := ⟨s.data.take n⟩

/-- Python `s[n:]` for `n ≥ 0`. -/
def pyDrop (n : Nat) (s : String) : String := ⟨s.data.drop n⟩

/-- Python `s[i:]` for a possibly negative `i` (negative indices count from
the end and are clamped at 0). -/
def pySliceFrom (s : String) (i : Int) : String :=
  let n : Int := s.data.length
  let start := if i < 0 then max 0 (n + i) else min i n
  ⟨s.data.drop start.toNat⟩

/-- Accumulator pass of Python's no-argument `s.split()`: whitespace-separated
words, empty words discarded. -/
def wordsAux : List Char → List Char → List (List Char)
  | [], acc => if acc = [] then [] else [acc.reverse]
  | c :: cs, acc =>
    if c.isWhitespace then
      if acc = [] then wordsAux cs [] else acc.reverse :: wordsAux cs []
    else wordsAux cs (c :: acc)

/-- Python `s.split()` (no separator argument). -/
def pyWords (s : String) : List String := (wordsAux s.data []).map String.mk

/-- Accumulator pass of Python's `s.split(sep)` for a one-character
separator: empty pieces are kept. -/
def splitOnCharAux (c : Char) : List Char → List Char → List (List Char)
  | [], acc => [acc.reverse]
  | x :: xs, acc =>
    if x = c then acc.reverse :: splitOnCharAux c xs []
    else splitOnCharAux c xs (x :: acc)

/-- Python `s.split(sep)` for a one-character separator `sep`. -/
def pySplitChar (c : Char) (s : String) : List String :=
  (splitOnCharAux c s.data []).map String.mk

/-! ## `os.path` primitives (POSIX semantics) -/

/-- Python `os.path.join(a, b)` (posixpath, two arguments). -/
def osJoin (a b : String) : String :=
  if b.data.head? = some '/' then b
  else if a.data = [] ∨ a.data.getLast? = some '/' then ⟨a.data ++ b.data⟩
  else ⟨a.data ++ '/' :: b.data⟩

/-- Python `os.path.dirname(p)` (posixpath). -/
def osDirname (p : String) : String :=
  let base := (p.data.reverse.takeWhile (fun c => c ≠ '/')).reverse
  let head := p.data.take (p.data.length - base.length)
  if head = [] then ⟨[]⟩
  else if head.all (fun c => c = '/') then ⟨head⟩
  else ⟨(head.reverse.dropWhile (fun c => c = '/')).reverse⟩

/-- Python `os.path.splitext(p)` (posixpath): split off the extension at the
last dot of the basename, leading dots of the basename not counting. -/
def splitext (p : String) : String × String :=
  let base := (p.data.reverse.takeWhile (fun c => c ≠ '/')).reverse
  let stem := base.dropWhile (fun c => c = '.')
  if stem.contains '.' then
    let extLen := (stem.reverse.takeWhile (fun c => c ≠ '.')).length + 1
    (⟨p.data.take (p.data.length - extLen)⟩, ⟨p.data.drop (p.data.length - extLen)⟩)
  else (p, ⟨[]⟩)

/-- Python `os.path.normpath(p)` (posixpath). -/
def normpath (p : String) : String :=
  if p = "" then "."
  else
    let initialSlashes : Nat :=
      if p.data.take 2 = ['/', '/'] ∧ p.data.take 3 ≠ ['/', '/', '/'] then 2
      else if p.data.head? = some '/' then 1 else 0
    let comps := pySplitChar '/' p
    let newComps := comps.foldl
      (fun acc comp =>
        if comp = "" ∨ comp = "." then acc
        else if comp ≠ ".." ∨ (initialSlashes = 0 ∧ acc = []) ∨ acc.getLast? = some ".." then
          acc ++ [comp]
        else acc.dropLast)
      []
    let path : String := ⟨List.replicate initialSlashes '/' ++ (String.intercalate "/" newComps).data⟩
    if path = "" then "." else path

/-! ## `get_sources`: the Makefile.in OBJECTS parser -/

/-- Ignore list built at the top of `get_sources`:
`[os.path.join(icuroot, os.path.normpath(s)) for s in [...]]`. -/
def icuIgnoreSources (icuroot : String) : List String :=
  ["source/tools/toolutil/udbgutil.cpp", "source/tools/toolutil/dbgutil.cpp"].map
    (fun source => osJoin icuroot (normpath source))

/-- Inner helper `get_source(object_path)` of `get_sources`: strip the
extension, prefer the `.cpp` sibling, fall back to `.c`; return `none`
(skip silently) when the candidate is ignore-listed — this check precedes
the existence checks — and raise when neither sibling exists. -/
def get_source (ignore : List String) (isFile : String → Bool) (object_path : String) :
    Except PyErr (Option String) :=
  let base := (splitext object_path).1
  let cpp := base ++ ".cpp"
  let c := base ++ ".c"
  if cpp ∈ ignore ∨ c ∈ ignore then .ok none
  else if isFile cpp then .ok (some cpp)
  else if isFile c then .ok (some c)
  else .error (raiseExc1 "%s has no corresponding source file" object_path)

/-- Body executed by `get_sources` for a line while `in_objs` holds (the
code between the trailing-backslash trim and `sources.extend`): check the
line's last character — an `IndexError` on the empty string — drop a
trailing `\`, split into object tokens, join each onto the fragment's
directory, resolve via `get_source` and keep the non-`None` results. -/
def procLine (ignore : List String) (isFile : String → Bool) (dir line : String) :
    Except PyErr (List String) :=
  match line.data.getLast? with
  | none => .error .indexError
  | some ch =>
    let line2 := if ch = '\\' then pyStrip ⟨line.data.dropLast⟩ else line
    let objects := (pyWords line2).map (fun o => osJoin dir o)
    match objects.mapM (get_source ignore isFile) with
    | .error e => .error e
    | .ok cpps => .ok (cpps.filterMap id)

/-- Line loop of `get_sources`: each line is stripped; a line whose first
seven characters read `OBJECTS` enters object mode and is sliced from
index 10; a blank line while in object mode returns the accumulated
sources; other lines in object mode are processed by `procLine`; reaching
end-of-file raises `Could not extract sources from %s`. -/
def gsLoop (ignore : List String) (isFile : String → Bool) (dir mkin_path : String) :
    List String → Bool → List String → Except PyErr (List String)
  | [], _, _ => .error (raiseExc1 "Could not extract sources from %s" mkin_path)
  | l :: rest, in_objs, sources =>
    let line := pyStrip l
    if pyTake 7 line = "OBJECTS" then
      match procLine ignore isFile dir (pyDrop 10 line) with
      | .error e => .error e
      | .ok cpps => gsLoop ignore isFile dir mkin_path rest true (sources ++ cpps)
    else if in_objs = true ∧ line = "" then .ok sources
    else if in_objs = true then
      match procLine ignore isFile dir line with
      | .error e => .error e
      | .ok cpps => gsLoop ignore isFile dir mkin_path rest in_objs (sources ++ cpps)
    else gsLoop ignore isFile dir mkin_path rest in_objs sources

/-- Model of `get_sources(icuroot, mkin_path)`: `lines` are the lines of the
file at `mkin_path` (without trailing newlines — the code strips each line
anyway) and `isFile` is the `os.path.isfile` oracle. -/
def get_sources (icuroot mkin_path : String) (isFile : String → Bool) (lines : List String) :
    Except PyErr (List String) :=
  gsLoop (icuIgnoreSources icuroot) isFile (osDirname mkin_path) mkin_path lines false []

/-! ## `get_headers` -/

/-- Ignore list built at the top of `get_headers`. -/
def icuIgnoreHeaders (icuroot : String) : List String :=
  ["source/tools/toolutil/udbgutil.h", "source/tools/toolutil/dbgutil.h"].map
    (fun source => osJoin icuroot (normpath source))

/-- Model of `get_headers(icuroot, headers_path)`: `isDir` is the
`os.path.isdir` oracle and `listing` the `os.listdir(headers_path)`
result. -/
def get_headers (icuroot headers_path : String) (isDir : String → Bool) (listing : List String) :
    Except PyErr (List String) :=
  let ignore := icuIgnoreHeaders icuroot
  if isDir headers_path = false then
    .error (raiseExc1 "%s is not a valid headers path" headers_path)
  else
    let headers := listing.map (fun h => osJoin headers_path h)
    let headers := headers.filter (fun h => (splitext h).2 == ".h")
    let headers := headers.filter (fun h => !ignore.contains h)
    .ok headers

/-! ## `create_msvc_props`: the version fields -/

/-- Version splitting of `create_msvc_props`: `version_parts =
version.split(".")`, the major field is `version_parts[0]`, the minor field
is `version_parts[1] if len(version_parts) > 1 else "0"`.  (`split` never
returns an empty list, so `version_parts[0]` always exists.) -/
def create_msvc_props_version (version : String) : String × String :=
  let version_parts := pySplitChar '.' version
  (version_parts.headD "",
   if version_parts.length > 1 then version_parts.getD 1 "" else "0")

/-! ## Spec-side vocabulary for the `get_sources` claims -/

/-- Sibling base path of an object token `o` declared in the fragment at
directory `dir`: the joined path with its extension stripped. -/
def tokenBase (dir o : String) : String := (splitext (osJoin dir o)).1

/-- Proposition that an object token's candidate sources are on the
ignore list (as `get_source` checks, before any existence test). -/
def tokenIgnored (ignore : List String) (dir o : String) : Prop :=
  tokenBase dir o ++ ".cpp" ∈ ignore ∨ tokenBase dir o ++ ".c" ∈ ignore

instance (ignore : List String) (dir o : String) : Decidable (tokenIgnored ignore dir o) := by
  unfold tokenIgnored; infer_instance

/-- Proposition that an object token resolves: it is not ignore-listed and
its `.cpp` or `.c` sibling exists. -/
def tokenGood (ignore : List String) (isFile : String → Bool) (dir o : String) : Prop :=
  ¬ tokenIgnored ignore dir o ∧
    (isFile (tokenBase dir o ++ ".cpp") = true ∨ isFile (tokenBase dir o ++ ".c") = true)

instance (ignore : List String) (isFile : String → Bool) (dir o : String) :
    Decidable (tokenGood ignore isFile dir o) := by
  unfold tokenGood; infer_instance

/-- Proposition that an object token has no source: it is not ignore-listed
and neither the `.cpp` nor the `.c` sibling exists. -/
def tokenMissing (ignore : List String) (isFile : String → Bool) (dir o : String) : Prop :=
  ¬ tokenIgnored ignore dir o ∧
    isFile (tokenBase dir o ++ ".cpp") = false ∧ isFile (tokenBase dir o ++ ".c") = false

instance (ignore : List String) (isFile : String → Bool) (dir o : String) :
    Decidable (tokenMissing ignore isFile dir o) := by
  unfold tokenMissing; infer_instance

/-- Resolution of one object token, following the claim's words: each
object token resolves to its `.cpp` sibling if that file exists and
otherwise to its `.c` sibling. -/
def specResolve (isFile : String → Bool) (dir o : String) : String :=
  if isFile (tokenBase dir o ++ ".cpp") then tokenBase dir o ++ ".cpp"
  else tokenBase dir o ++ ".c"

/-- Per-token outcome including the ignore list, following the claim's
words: an ignore-listed token is silently dropped, any other token
resolves. -/
def specResolveOpt (ignore : List String) (isFile : String → Bool) (dir o : String) :
    Option String :=
  if tokenIgnored ignore dir o then none else some (specResolve isFile dir o)

/-- Object tokens contributed by one line of the `OBJECTS` block: the
whitespace-separated tokens after removing a trailing backslash
continuation marker. -/
def specLineTokens (line : String) : List String :=
  match line.data.getLast? with
  | none => []
  | some ch => pyWords (if ch = '\\' then pyStrip ⟨line.data.dropLast⟩ else line)

/-- Object tokens of a fragment in declaration (document) order: those on
the `OBJECTS` line after the assignment syntax (`r` is the line's text past
column 10), then those of each backslash-continued line. -/
def fragmentTokens (r : String) (conts : List String) : List String :=
  specLineTokens r ++ conts.flatMap (fun l => specLineTokens (pyStrip l))

/-- Header listing following the claim's words: exactly the entries
directly within the directory whose extension is `.h`, excluding the
ignore-listed toolutil headers. -/
def specHeaderList (icuroot headers_path : String) (listing : List String) : List String :=
  (listing.map (fun h => osJoin headers_path h)).filter
    (fun h => (splitext h).2 == ".h" && !(icuIgnoreHeaders icuroot).contains h)

/-! ## `download_icu`: checksum verification -/

/-- Manifest-line filter of `download_icu`:
`line[len(line) - len(archive_file):] == archive_file`. -/
def matchesArchive (archive_file line : String) : Bool :=
  pySliceFrom line ((line.data.length : Int) - (archive_file.data.length : Int)) == archive_file

/-- Verification tail of `download_icu` (lines 174–193 of the script),
with the already-computed MD5 hex digest `checksum` of the downloaded
archive at `archive_path` and the fetched manifest text as inputs: split
the manifest into lines, keep those ending in the archive filename, demand
exactly one, compare its first space-separated token against `checksum`,
and return `archive_path` on success.  Both failure branches are written
`raise Exception("...%s...%s" % x, y)` in the script, modelled by
`raiseExc2`. -/
def download_icu_verify (archive_file md5_url archive_path manifest checksum : String) :
    Except PyErr String :=
  let md5s := pySplitChar '\n' manifest
  let relevant_md5 := md5s.filter (matchesArchive archive_file)
  if relevant_md5.length ≠ 1 then
    .error (raiseExc2 "Could not find md5 hash for %s in %s" archive_file md5_url)
  else
    let correct_hash := relevant_md5.headD ""
    let correct_hash := (pySplitChar ' ' correct_hash).headD ""
    if correct_hash = checksum then .ok archive_path
    else .error (raiseExc2 "MD5 checksums do not match. Expected %s, got %s" correct_hash checksum)

/-! # Theorems -/

/-! ## Generic helper lemmas -/

theorem string_data_ne {s : String} (h : s ≠ "") : s.data ≠ [] := by
  intro hd
  apply h
  cases s with
  | mk d => cases hd; rfl

theorem exceptMapM_ok {α β : Type} {f : α → Except PyErr β} {g : α → β} :
    ∀ {xs : List α}, (∀ x ∈ xs, f x = Except.ok (g x)) →
      List.mapM f xs = Except.ok (List.map g xs) := by
  intro xs
  induction xs with
  | nil => intro _; rfl
  | cons x xs ih =>
    intro h
    rw [List.mapM_cons, h x (by simp), ih (fun a ha => h a (by simp [ha]))]
    rfl

theorem exceptMapM_err {α β : Type} {f : α → Except PyErr β} {g : α → β} {e : PyErr} {o : α}
    (ho : f o = Except.error e) :
    ∀ (xs ys : List α), (∀ x ∈ xs, f x = Except.ok (g x)) →
      List.mapM f (xs ++ o :: ys) = Except.error e := by
  intro xs
  induction xs with
  | nil => intro ys _; rw [List.nil_append, List.mapM_cons, ho]; rfl
  | cons x xs ih =>
    intro ys h
    rw [List.cons_append, List.mapM_cons, h x (by simp), ih ys (fun a ha => h a (by simp [ha]))]
    rfl

theorem exceptMapM_map {α β γ : Type} (h : α → β) (f : β → Except PyErr γ) :
    ∀ (xs : List α), List.mapM f (xs.map h) = List.mapM (fun x => f (h x)) xs := by
  intro xs
  induction xs with
  | nil => rfl
  | cons x xs ih => rw [List.map_cons, List.mapM_cons, List.mapM_cons, ih]

/-! ## Format-string lemmas -/

theorem substPercentS_cons {c : Char} (hc : c ≠ '%') (arg : String) (l : List Char) :
    substPercentS arg (c :: l) = c :: substPercentS arg l := by
  cases l with
  | nil => rfl
  | cons d m => simp [substPercentS, hc]

theorem substPercentS_lead (arg : String) :
    ∀ (l : List Char), '%' ∉ l → ∀ (r : List Char),
      substPercentS arg (l ++ '%' :: 's' :: r) = l ++ (arg.data ++ r) := by
  intro l
  induction l with
  | nil => intro _ r; simp [substPercentS]
  | cons c l ih =>
    intro hmem r
    have hc : c ≠ '%' := fun h => hmem (by rw [h]; exact List.mem_cons_self _ _)
    rw [List.cons_append, substPercentS_cons hc, ih (fun h => hmem (List.mem_cons_of_mem _ h)) r]
    rfl

theorem raiseExc1_missing (p : String) :
    raiseExc1 "%s has no corresponding source file" p =
      PyErr.exception (p ++ " has no corresponding source file") := rfl

theorem raiseExc1_invalid_headers (p : String) :
    raiseExc1 "%s is not a valid headers path" p =
      PyErr.exception (p ++ " is not a valid headers path") := rfl

theorem raiseExc1_malformed (m : String) :
    raiseExc1 "Could not extract sources from %s" m =
      PyErr.exception ("Could not extract sources from " ++ m) := by
  have h1 : ("Could not extract sources from %s" : String).data
      = ("Could not extract sources from " : String).data ++ '%' :: 's' :: [] := rfl
  calc raiseExc1 "Could not extract sources from %s" m
      = PyErr.exception ⟨substPercentS m ("Could not extract sources from %s" : String).data⟩ :=
        rfl
    _ = PyErr.exception ("Could not extract sources from " ++ m) := by
        rw [h1, substPercentS_lead m _ (by decide) []]
        simp only [List.append_nil]
        rfl

theorem raiseExc2_not_found (a u : String) :
    raiseExc2 "Could not find md5 hash for %s in %s" a u =
      PyErr.typeError "not enough arguments for format string" := rfl

theorem raiseExc2_mismatch (a b : String) :
    raiseExc2 "MD5 checksums do not match. Expected %s, got %s" a b =
      PyErr.typeError "not enough arguments for format string" := rfl

/-! ## Per-token lemmas about `get_source` -/

theorem get_source_ignored {ignore : List String} {isFile : String → Bool} {dir o : String}
    (h : tokenIgnored ignore dir o) :
    get_source ignore isFile (osJoin dir o) = Except.ok none := by
  simp only [tokenIgnored, tokenBase] at h
  simp only [get_source]
  rw [if_pos h]

theorem get_source_good {ignore : List String} {isFile : String → Bool} {dir o : String}
    (h : tokenGood ignore isFile dir o) :
    get_source ignore isFile (osJoin dir o) = Except.ok (some (specResolve isFile dir o)) := by
  obtain ⟨hni, hex⟩ := h
  simp only [tokenIgnored, tokenBase] at hni
  simp only [tokenBase] at hex
  simp only [get_source, specResolve, tokenBase]
  rw [if_neg hni]
  cases hcpp : isFile ((splitext (osJoin dir o)).1 ++ ".cpp") with
  | true => simp [hcpp]
  | false =>
    have hc : isFile ((splitext (osJoin dir o)).1 ++ ".c") = true := by
      cases hex with
      | inl h1 => rw [hcpp] at h1; cases h1
      | inr h2 => exact h2
    simp [hcpp, hc]

theorem get_source_missing {ignore : List String} {isFile : String → Bool} {dir o : String}
    (h : tokenMissing ignore isFile dir o) :
    get_source ignore isFile (osJoin dir o) =
      Except.error (.exception (osJoin dir o ++ " has no corresponding source file")) := by
  obtain ⟨hni, h1, h2⟩ := h
  simp only [tokenIgnored, tokenBase] at hni
  simp only [tokenBase] at h1 h2
  simp only [get_source]
  rw [if_neg hni]
  simp [h1, h2, raiseExc1_missing]

theorem get_source_goodOrIgnored {ignore : List String} {isFile : String → Bool} {dir o : String}
    (h : tokenGood ignore isFile dir o ∨ tokenIgnored ignore dir o) :
    get_source ignore isFile (osJoin dir o) =
      Except.ok (specResolveOpt ignore isFile dir o) := by
  cases h with
  | inl hg =>
    rw [get_source_good hg, specResolveOpt, if_neg hg.1]
  | inr hi =>
    rw [get_source_ignored hi, specResolveOpt, if_pos hi]

/-! ## Per-line lemmas about `procLine` -/

theorem specLineTokens_of_getLast {line : String} {ch : Char}
    (hch : line.data.getLast? = some ch) :
    specLineTokens line =
      pyWords (if ch = '\\' then pyStrip ⟨line.data.dropLast⟩ else line) := by
  rw [specLineTokens, hch]

theorem procLine_ok {ignore : List String} {isFile : String → Bool} {dir : String}
    {line : String} (hne : line.data ≠ [])
    (h : ∀ o ∈ specLineTokens line,
      tokenGood ignore isFile dir o ∨ tokenIgnored ignore dir o) :
    procLine ignore isFile dir line =
      Except.ok ((specLineTokens line).filterMap (specResolveOpt ignore isFile dir)) := by
  obtain ⟨ch, hch⟩ : ∃ c, line.data.getLast? = some c := by
    cases hg : line.data.getLast? with
    | none => exact absurd (List.getLast?_eq_none_iff.mp hg) hne
    | some c => exact ⟨c, rfl⟩
  rw [specLineTokens_of_getLast hch] at h ⊢
  simp only [procLine, hch]
  rw [exceptMapM_map,
    exceptMapM_ok (g := specResolveOpt ignore isFile dir)
      (fun o ho => get_source_goodOrIgnored (h o ho))]
  simp [List.filterMap_map, Function.comp_def]

theorem procLine_err {ignore : List String} {isFile : String → Bool} {dir : String}
    {line : String} {a b : List String} {o : String} (hne : line.data ≠ [])
    (hsplit : specLineTokens line = a ++ o :: b)
    (ha : ∀ t ∈ a, tokenGood ignore isFile dir t ∨ tokenIgnored ignore dir t)
    (ho : tokenMissing ignore isFile dir o) :
    procLine ignore isFile dir line =
      Except.error (.exception (osJoin dir o ++ " has no corresponding source file")) := by
  obtain ⟨ch, hch⟩ : ∃ c, line.data.getLast? = some c := by
    cases hg : line.data.getLast? with
    | none => exact absurd (List.getLast?_eq_none_iff.mp hg) hne
    | some c => exact ⟨c, rfl⟩
  rw [specLineTokens_of_getLast hch] at hsplit
  simp only [procLine, hch]
  rw [hsplit, exceptMapM_map]
  rw [exceptMapM_err (f := fun t => get_source ignore isFile (osJoin dir t))
      (g := specResolveOpt ignore isFile dir)
      (e := PyErr.exception (osJoin dir o ++ " has no corresponding source file"))
      (o := o) (get_source_missing ho) a b
      (fun t ht => get_source_goodOrIgnored (ha t ht))]

/-- IndexError case of `procLine`: the slice `line[10:]` of a bare
`OBJECTS` assignment is empty, and the last-character check indexes it. -/
theorem procLine_empty {ignore : List String} {isFile : String → Bool} {dir : String}
    {line : String} (hne : line.data = []) :
    procLine ignore isFile dir line = Except.error PyErr.indexError := by
  simp only [procLine, hne]
  rfl

/-! ## Loop lemmas about `gsLoop` -/

theorem except_bind_ok {α β : Type} (a : α) (k : α → Except PyErr β) :
    (Except.ok a >>= k) = k a := rfl

theorem except_bind_err {α β : Type} (e : PyErr) (k : α → Except PyErr β) :
    ((Except.error e : Except PyErr α) >>= k) = Except.error e := rfl

theorem except_pure {α : Type} (a : α) : (pure a : Except PyErr α) = Except.ok a := rfl

theorem gsLoop_nil (ignore : List String) (isFile : String → Bool) (dir mkin_path : String)
    (in_objs : Bool) (sources : List String) :
    gsLoop ignore isFile dir mkin_path [] in_objs sources =
      Except.error (.exception ("Could not extract sources from " ++ mkin_path)) := by
  simp only [gsLoop]
  rw [raiseExc1_malformed]

theorem gsLoop_pre (ignore : List String) (isFile : String → Bool) (dir mkin_path : String) :
    ∀ (pre : List String), (∀ l ∈ pre, pyTake 7 (pyStrip l) ≠ "OBJECTS") →
    ∀ (rest : List String),
      gsLoop ignore isFile dir mkin_path (pre ++ rest) false [] =
        gsLoop ignore isFile dir mkin_path rest false [] := by
  intro pre
  induction pre with
  | nil => intro _ rest; rw [List.nil_append]
  | cons l pre ih =>
    intro h rest
    rw [List.cons_append]
    simp only [gsLoop]
    rw [if_neg (h l (by simp)), if_neg (by simp), if_neg (by simp)]
    exact ih (fun a ha => h a (by simp [ha])) rest

theorem gsLoop_term (ignore : List String) (isFile : String → Bool) (dir mkin_path : String)
    {term : String} (hterm : pyStrip term = "") (post : List String) (acc : List String) :
    gsLoop ignore isFile dir mkin_path (term :: post) true acc = Except.ok acc := by
  simp only [gsLoop]
  rw [hterm, if_neg (by decide : ¬ (pyTake 7 "" = "OBJECTS"))]
  rw [if_pos (by exact ⟨trivial, rfl⟩)]

theorem gsLoop_cons_content (ignore : List String) (isFile : String → Bool)
    (dir mkin_path : String) {l : String} (h1 : pyStrip l ≠ "")
    (h2 : pyTake 7 (pyStrip l) ≠ "OBJECTS") (rest : List String) (acc : List String) :
    gsLoop ignore isFile dir mkin_path (l :: rest) true acc =
      procLine ignore isFile dir (pyStrip l) >>= fun cpps =>
        gsLoop ignore isFile dir mkin_path rest true (acc ++ cpps) := by
  simp only [gsLoop]
  rw [if_neg h2, if_neg (fun hh => h1 hh.2), if_pos trivial]
  cases procLine ignore isFile dir (pyStrip l) with
  | error e => rfl
  | ok cpps => rfl

theorem gsLoop_chunk (ignore : List String) (isFile : String → Bool) (dir mkin_path : String) :
    ∀ (conts tail acc : List String),
      (∀ l ∈ conts, pyStrip l ≠ "" ∧ pyTake 7 (pyStrip l) ≠ "OBJECTS") →
      gsLoop ignore isFile dir mkin_path (conts ++ tail) true acc =
        conts.mapM (fun l => procLine ignore isFile dir (pyStrip l)) >>= fun xss =>
          gsLoop ignore isFile dir mkin_path tail true (acc ++ xss.flatten) := by
  intro conts
  induction conts with
  | nil =>
    intro tail acc _
    rw [List.nil_append, List.mapM_nil, except_pure, except_bind_ok, List.flatten_nil,
      List.append_nil]
  | cons l conts ih =>
    intro tail acc h
    rw [List.cons_append,
      gsLoop_cons_content ignore isFile dir mkin_path (h l (by simp)).1 (h l (by simp)).2,
      List.mapM_cons]
    cases hp : procLine ignore isFile dir (pyStrip l) with
    | error e => rw [except_bind_err, except_bind_err, except_bind_err]
    | ok cpps =>
      rw [except_bind_ok, except_bind_ok, ih tail (acc ++ cpps) (fun a ha => h a (by simp [ha]))]
      cases hm : conts.mapM (fun l => procLine ignore isFile dir (pyStrip l)) with
      | error e => rw [except_bind_err, except_bind_err, except_bind_err]
      | ok xss =>
        rw [except_bind_ok, except_bind_ok, except_pure, except_bind_ok, List.flatten_cons,
          List.append_assoc]

theorem pyTake7_objects (r : String) : pyTake 7 ("OBJECTS = " ++ r) = "OBJECTS" := rfl

theorem pyDrop10_objects (r : String) : pyDrop 10 ("OBJECTS = " ++ r) = r := rfl

theorem gsLoop_objLine (ignore : List String) (isFile : String → Bool) (dir mkin_path : String)
    {objLine r : String} (hobj : pyStrip objLine = "OBJECTS = " ++ r)
    (rest : List String) (in_objs : Bool) (sources : List String) :
    gsLoop ignore isFile dir mkin_path (objLine :: rest) in_objs sources =
      procLine ignore isFile dir r >>= fun cpps =>
        gsLoop ignore isFile dir mkin_path rest true (sources ++ cpps) := by
  simp only [gsLoop]
  rw [hobj, pyTake7_objects, if_pos rfl, pyDrop10_objects]
  cases procLine ignore isFile dir r with
  | error e => rfl
  | ok cpps => rfl

/-- Execution of `get_sources` on a fragment `pre ++ objLine :: (conts ++ tail)`
whose `OBJECTS` line strips to `OBJECTS = ` followed by `r`: the remainder
`r` and each stripped continuation line are processed in order by
`procLine`, the first failure aborting, and the loop then continues on
`tail` in object mode with the accumulated sources. -/
theorem get_sources_run (icuroot mkin_path : String) (isFile : String → Bool)
    {pre : List String} {objLine r : String} {conts : List String} (tail : List String)
    (hpre : ∀ l ∈ pre, pyTake 7 (pyStrip l) ≠ "OBJECTS")
    (hobj : pyStrip objLine = "OBJECTS = " ++ r)
    (hconts : ∀ l ∈ conts, pyStrip l ≠ "" ∧ pyTake 7 (pyStrip l) ≠ "OBJECTS") :
    get_sources icuroot mkin_path isFile (pre ++ objLine :: (conts ++ tail)) =
      procLine (icuIgnoreSources icuroot) isFile (osDirname mkin_path) r >>= fun cpps =>
        conts.mapM
            (fun l => procLine (icuIgnoreSources icuroot) isFile (osDirname mkin_path)
              (pyStrip l)) >>= fun xss =>
          gsLoop (icuIgnoreSources icuroot) isFile (osDirname mkin_path) mkin_path tail true
            (cpps ++ xss.flatten) := by
  rw [get_sources, gsLoop_pre _ _ _ _ pre hpre, gsLoop_objLine _ _ _ _ hobj]
  cases hp : procLine (icuIgnoreSources icuroot) isFile (osDirname mkin_path) r with
  | error e => rw [except_bind_err, except_bind_err]
  | ok cpps =>
    rw [except_bind_ok, except_bind_ok, List.nil_append,
      gsLoop_chunk _ _ _ _ conts tail cpps hconts]

/-! ## Token-list algebra -/

theorem specResolveOpt_good {ignore : List String} {isFile : String → Bool} {dir o : String}
    (h : tokenGood ignore isFile dir o) :
    specResolveOpt ignore isFile dir o = some (specResolve isFile dir o) := by
  rw [specResolveOpt, if_neg h.1]

theorem filterMap_resolve_good {ignore : List String} {isFile : String → Bool} {dir : String} :
    ∀ {toks : List String}, (∀ o ∈ toks, tokenGood ignore isFile dir o) →
      toks.filterMap (specResolveOpt ignore isFile dir) = toks.map (specResolve isFile dir) := by
  intro toks
  induction toks with
  | nil => intro _; rfl
  | cons t ts ih =>
    intro h
    rw [List.filterMap_cons_some (specResolveOpt_good (h t (by simp))), List.map_cons,
      ih (fun a ha => h a (by simp [ha]))]

theorem flatten_map_filterMap (ρ : String → Option String) (t : String → List String) :
    ∀ (ls : List String),
      (ls.map (fun l => (t l).filterMap ρ)).flatten = (ls.flatMap t).filterMap ρ := by
  intro ls
  induction ls with
  | nil => rfl
  | cons l ls ih =>
    rw [List.map_cons, List.flatten_cons, List.flatMap_cons, List.filterMap_append, ih]

/-- C1: for every well-formed build fragment — any prefix of lines not
opening an `OBJECTS` assignment, then a line that strips to `OBJECTS = `
followed by a nonempty remainder `r`, then nonblank continuation lines up
to the first blank line — whose object tokens all resolve (none
ignore-listed, each with an existing `.cpp` or `.c` sibling), `get_sources`
returns exactly the resolved source paths in declaration (document) order,
duplicates not suppressed, each token resolving to its `.cpp` sibling if
that file exists and otherwise to its `.c` sibling. -/
theorem get_sources_wellformed_ordered (icuroot mkin_path : String) (isFile : String → Bool)
    (pre : List String) (objLine r : String) (conts : List String) (term : String)
    (post : List String)
    (hpre : ∀ l ∈ pre, pyTake 7 (pyStrip l) ≠ "OBJECTS")
    (hobj : pyStrip objLine = "OBJECTS = " ++ r)
    (hr : r ≠ "")
    (hconts : ∀ l ∈ conts, pyStrip l ≠ "" ∧ pyTake 7 (pyStrip l) ≠ "OBJECTS")
    (hterm : pyStrip term = "")
    (hgood : ∀ o ∈ fragmentTokens r conts,
      tokenGood (icuIgnoreSources icuroot) isFile (osDirname mkin_path) o) :
    get_sources icuroot mkin_path isFile (pre ++ objLine :: (conts ++ term :: post)) =
      Except.ok ((fragmentTokens r conts).map (specResolve isFile (osDirname mkin_path))) := by
  rw [get_sources_run icuroot mkin_path isFile (term :: post) hpre hobj hconts]
  rw [procLine_ok (string_data_ne hr)
    (fun o ho => Or.inl (hgood o (by rw [fragmentTokens]; exact List.mem_append_left _ ho)))]
  rw [except_bind_ok]
  rw [exceptMapM_ok
    (g := fun l => (specLineTokens (pyStrip l)).filterMap
      (specResolveOpt (icuIgnoreSources icuroot) isFile (osDirname mkin_path)))
    (fun l hl => procLine_ok (string_data_ne (hconts l hl).1)
      (fun o ho => Or.inl (hgood o (by
        rw [fragmentTokens]
        exact List.mem_append_right _ (List.mem_flatMap.mpr ⟨l, hl, ho⟩)))))]
  rw [except_bind_ok, gsLoop_term _ _ _ _ hterm]
  rw [flatten_map_filterMap _ (fun l => specLineTokens (pyStrip l)) conts]
  rw [← List.filterMap_append]
  rw [show specLineTokens r ++ conts.flatMap (fun l => specLineTokens (pyStrip l))
      = fragmentTokens r conts from rfl]
  rw [filterMap_resolve_good hgood]

/-- Witness for C1 on a concrete well-formed fragment with a duplicate
token: both `.cpp` preference and `.c` fallback occur, the duplicate is
kept, and the order is the declaration order. -/
theorem get_sources_wellformed_ordered_witness :
    get_sources "/icu" "/icu/source/common/Makefile.in"
        (fun p => p == "/icu/source/common/a.cpp" || p == "/icu/source/common/b.c")
        ["# preamble", "", "OBJECTS = a.o b.o \\", "b.o", "", "install: all"] =
      Except.ok ["/icu/source/common/a.cpp", "/icu/source/common/b.c",
        "/icu/source/common/b.c"] := by
  have h := get_sources_wellformed_ordered "/icu" "/icu/source/common/Makefile.in"
    (fun p => p == "/icu/source/common/a.cpp" || p == "/icu/source/common/b.c")
    ["# preamble", ""] "OBJECTS = a.o b.o \\" "a.o b.o \\" ["b.o"] "" ["install: all"]
    (by decide) (by decide) (by decide) (by decide) (by decide) (by decide)
  exact h.trans (by rfl)

/-- C6: for every object token of a well-formed fragment whose `.cpp` or
`.c` candidate is on the fixed ignore list, `get_sources` silently omits
that token from the returned list and does not error — even when neither
source file exists on disk, since the ignore check precedes the existence
checks: ignore-listed tokens need no existence hypothesis here, and each
maps to `none` in the result computation. -/
theorem get_sources_ignored_omitted (icuroot mkin_path : String) (isFile : String → Bool)
    (pre : List String) (objLine r : String) (conts : List String) (term : String)
    (post : List String)
    (hpre : ∀ l ∈ pre, pyTake 7 (pyStrip l) ≠ "OBJECTS")
    (hobj : pyStrip objLine = "OBJECTS = " ++ r)
    (hr : r ≠ "")
    (hconts : ∀ l ∈ conts, pyStrip l ≠ "" ∧ pyTake 7 (pyStrip l) ≠ "OBJECTS")
    (hterm : pyStrip term = "")
    (hmix : ∀ o ∈ fragmentTokens r conts,
      tokenGood (icuIgnoreSources icuroot) isFile (osDirname mkin_path) o ∨
        tokenIgnored (icuIgnoreSources icuroot) (osDirname mkin_path) o) :
    get_sources icuroot mkin_path isFile (pre ++ objLine :: (conts ++ term :: post)) =
      Except.ok ((fragmentTokens r conts).filterMap
        (specResolveOpt (icuIgnoreSources icuroot) isFile (osDirname mkin_path))) ∧
    ∀ o ∈ fragmentTokens r conts,
      tokenIgnored (icuIgnoreSources icuroot) (osDirname mkin_path) o →
        specResolveOpt (icuIgnoreSources icuroot) isFile (osDirname mkin_path) o = none := by
  constructor
  · rw [get_sources_run icuroot mkin_path isFile (term :: post) hpre hobj hconts]
    rw [procLine_ok (string_data_ne hr)
      (fun o ho => hmix o (by rw [fragmentTokens]; exact List.mem_append_left _ ho))]
    rw [except_bind_ok]
    rw [exceptMapM_ok
      (g := fun l => (specLineTokens (pyStrip l)).filterMap
        (specResolveOpt (icuIgnoreSources icuroot) isFile (osDirname mkin_path)))
      (fun l hl => procLine_ok (string_data_ne (hconts l hl).1)
        (fun o ho => hmix o (by
          rw [fragmentTokens]
          exact List.mem_append_right _ (List.mem_flatMap.mpr ⟨l, hl, ho⟩))))]
    rw [except_bind_ok, gsLoop_term _ _ _ _ hterm]
    rw [flatten_map_filterMap _ (fun l => specLineTokens (pyStrip l)) conts]
    rw [← List.filterMap_append]
    rw [show specLineTokens r ++ conts.flatMap (fun l => specLineTokens (pyStrip l))
        = fragmentTokens r conts from rfl]
  · intro o _ hio
    rw [specResolveOpt, if_pos hio]

/-- Witness for C6: the `toolutil` fragment lists `udbgutil.o`, whose
candidate sources are ignore-listed and do not exist on disk; the token is
dropped without an error. -/
theorem get_sources_ignored_omitted_witness :
    get_sources "/icu" "/icu/source/tools/toolutil/Makefile.in"
        (fun p => p == "/icu/source/tools/toolutil/a.cpp")
        ["OBJECTS = a.o udbgutil.o", ""] =
      Except.ok ["/icu/source/tools/toolutil/a.cpp"] ∧
    specResolveOpt (icuIgnoreSources "/icu")
        (fun p => p == "/icu/source/tools/toolutil/a.cpp")
        (osDirname "/icu/source/tools/toolutil/Makefile.in") "udbgutil.o" = none := by
  have h := get_sources_ignored_omitted "/icu" "/icu/source/tools/toolutil/Makefile.in"
    (fun p => p == "/icu/source/tools/toolutil/a.cpp")
    [] "OBJECTS = a.o udbgutil.o" "a.o udbgutil.o" [] "" []
    (by decide) (by decide) (by decide) (by decide) (by decide) (by decide)
  exact ⟨h.1.trans (by rfl), h.2 "udbgutil.o" (by decide) (by decide)⟩

/-- C7: a fragment in which the line loop reaches end-of-file without
returning — either the `OBJECTS` block is opened but never terminated by a
blank line, or no line opens an `OBJECTS` assignment at all — makes
`get_sources` raise the malformed-fragment error `Could not extract
sources from <path>` instead of returning a list (in the unterminated
case, provided no earlier error fires: the assignment line carries a
nonempty remainder and every token resolves or is ignore-listed; in the
no-`OBJECTS`-line case every line is simply skipped). -/
theorem get_sources_missing_terminator (icuroot mkin_path : String) (isFile : String → Bool) :
    (∀ (pre : List String) (objLine r : String) (conts : List String),
      (∀ l ∈ pre, pyTake 7 (pyStrip l) ≠ "OBJECTS") →
      pyStrip objLine = "OBJECTS = " ++ r →
      r ≠ "" →
      (∀ l ∈ conts, pyStrip l ≠ "" ∧ pyTake 7 (pyStrip l) ≠ "OBJECTS") →
      (∀ o ∈ fragmentTokens r conts,
        tokenGood (icuIgnoreSources icuroot) isFile (osDirname mkin_path) o ∨
          tokenIgnored (icuIgnoreSources icuroot) (osDirname mkin_path) o) →
      get_sources icuroot mkin_path isFile (pre ++ objLine :: conts) =
        Except.error (.exception ("Could not extract sources from " ++ mkin_path))) ∧
    (∀ lines : List String,
      (∀ l ∈ lines, pyTake 7 (pyStrip l) ≠ "OBJECTS") →
      get_sources icuroot mkin_path isFile lines =
        Except.error (.exception ("Could not extract sources from " ++ mkin_path))) := by
  constructor
  · intro pre objLine r conts hpre hobj hr hconts hmix
    have h0 : pre ++ objLine :: conts = pre ++ objLine :: (conts ++ ([] : List String)) := by
      rw [List.append_nil]
    rw [h0, get_sources_run icuroot mkin_path isFile [] hpre hobj hconts]
    rw [procLine_ok (string_data_ne hr)
      (fun o ho => hmix o (by rw [fragmentTokens]; exact List.mem_append_left _ ho))]
    rw [except_bind_ok]
    rw [exceptMapM_ok
      (g := fun l => (specLineTokens (pyStrip l)).filterMap
        (specResolveOpt (icuIgnoreSources icuroot) isFile (osDirname mkin_path)))
      (fun l hl => procLine_ok (string_data_ne (hconts l hl).1)
        (fun o ho => hmix o (by
          rw [fragmentTokens]
          exact List.mem_append_right _ (List.mem_flatMap.mpr ⟨l, hl, ho⟩))))]
    rw [except_bind_ok, gsLoop_nil]
  · intro lines hnone
    have h2 := gsLoop_pre (icuIgnoreSources icuroot) isFile (osDirname mkin_path) mkin_path
      lines hnone []
    rw [List.append_nil] at h2
    rw [get_sources, h2, gsLoop_nil]

/-- Witness for C7: a one-line fragment with an unterminated `OBJECTS`
block, and a fragment with no `OBJECTS` line at all; both raise the
malformed-fragment error. -/
theorem get_sources_missing_terminator_witness :
    get_sources "/icu" "/icu/source/common/Makefile.in" (fun _ => true) ["OBJECTS = a.o"] =
      Except.error
        (.exception "Could not extract sources from /icu/source/common/Makefile.in") ∧
    get_sources "/icu" "/icu/source/common/Makefile.in" (fun _ => true)
        ["# no objects here", "CFLAGS = -O2", ""] =
      Except.error
        (.exception "Could not extract sources from /icu/source/common/Makefile.in") := by
  constructor
  · exact ((get_sources_missing_terminator "/icu" "/icu/source/common/Makefile.in"
      (fun _ => true)).1 [] "OBJECTS = a.o" "a.o" []
      (by decide) (by decide) (by decide) (by decide) (by decide)).trans (by rfl)
  · exact ((get_sources_missing_terminator "/icu" "/icu/source/common/Makefile.in"
      (fun _ => true)).2 ["# no objects here", "CFLAGS = -O2", ""] (by decide)).trans (by rfl)

/-- C10: if the first `OBJECTS` line strips to at most ten characters (for
example the bare assignment `OBJECTS =`), the slice from index 10 is the
empty string, and `get_sources` then indexes the last character of that
empty string: the run aborts with an `IndexError`, which is none of the
specified error kinds (`PyErr.exception` messages). -/
theorem get_sources_indexError (icuroot mkin_path : String) (isFile : String → Bool)
    (pre : List String) (objLine : String) (rest : List String)
    (hpre : ∀ l ∈ pre, pyTake 7 (pyStrip l) ≠ "OBJECTS")
    (hobj7 : pyTake 7 (pyStrip objLine) = "OBJECTS")
    (hlen : (pyStrip objLine).data.length ≤ 10) :
    get_sources icuroot mkin_path isFile (pre ++ objLine :: rest) =
      Except.error PyErr.indexError := by
  rw [get_sources, gsLoop_pre _ _ _ _ pre hpre]
  simp only [gsLoop]
  rw [if_pos hobj7,
    procLine_empty (show (pyDrop 10 (pyStrip objLine)).data = [] from
      List.drop_eq_nil_of_le hlen)]

/-- Witness for C10: the bare assignment line `OBJECTS =`. -/
theorem get_sources_indexError_witness :
    get_sources "/icu" "/icu/source/common/Makefile.in" (fun _ => false) ["OBJECTS ="] =
      Except.error PyErr.indexError := by
  have h := get_sources_indexError "/icu" "/icu/source/common/Makefile.in" (fun _ => false)
    [] "OBJECTS =" [] (by decide) (by decide) (by decide)
  exact h

/-- Error propagation across the continuation lines: if the concatenated
token stream of the stripped continuation lines splits as good-or-ignored
tokens followed by a token with no source, processing the lines stops at
that token's missing-source error. -/
theorem contsMapM_err (ignore : List String) (isFile : String → Bool) (dir : String) :
    ∀ (conts gtoks : List String) (o : String) (more : List String),
      (∀ l ∈ conts, pyStrip l ≠ "") →
      conts.flatMap (fun l => specLineTokens (pyStrip l)) = gtoks ++ o :: more →
      (∀ t ∈ gtoks, tokenGood ignore isFile dir t ∨ tokenIgnored ignore dir t) →
      tokenMissing ignore isFile dir o →
      conts.mapM (fun l => procLine ignore isFile dir (pyStrip l)) =
        Except.error (.exception (osJoin dir o ++ " has no corresponding source file")) := by
  intro conts
  induction conts with
  | nil =>
    intro gtoks o more _ hsplit _ _
    exact absurd hsplit (by simp)
  | cons l conts ih =>
    intro gtoks o more hne hsplit hg hmiss
    rw [List.flatMap_cons] at hsplit
    rcases List.append_eq_append_iff.mp hsplit with ⟨a', ha1, ha2⟩ | ⟨c', hc1, hc2⟩
    · rw [List.mapM_cons,
        procLine_ok (string_data_ne (hne l (by simp)))
          (fun t ht => hg t (by rw [ha1]; exact List.mem_append_left _ ht)),
        except_bind_ok,
        ih a' o more (fun x hx => hne x (by simp [hx])) ha2
          (fun t ht => hg t (by rw [ha1]; exact List.mem_append_right _ ht)) hmiss,
        except_bind_err]
    · cases c' with
      | nil =>
        rw [List.append_nil] at hc1
        rw [List.nil_append] at hc2
        rw [List.mapM_cons,
          procLine_ok (string_data_ne (hne l (by simp))) (fun t ht => hg t (hc1 ▸ ht)),
          except_bind_ok,
          ih [] o more (fun x hx => hne x (by simp [hx])) hc2.symm (by simp) hmiss,
          except_bind_err]
      | cons o2 c2 =>
        rw [List.cons_append] at hc2
        injection hc2 with h1 h2
        subst h1
        rw [List.mapM_cons,
          procLine_err (string_data_ne (hne l (by simp))) hc1 hg hmiss,
          except_bind_err]

/-- C5: for every fragment declaring an object token that is not
ignore-listed and has neither an existing `.cpp` nor an existing `.c`
sibling — here the first such token, all earlier tokens resolving or
being ignore-listed — `get_sources` fails with the missing-source error
naming the offending object path. -/
theorem get_sources_missing_source (icuroot mkin_path : String) (isFile : String → Bool)
    (pre : List String) (objLine r : String) (conts tail : List String)
    (gtoks : List String) (o : String) (more : List String)
    (hpre : ∀ l ∈ pre, pyTake 7 (pyStrip l) ≠ "OBJECTS")
    (hobj : pyStrip objLine = "OBJECTS = " ++ r)
    (hr : r ≠ "")
    (hconts : ∀ l ∈ conts, pyStrip l ≠ "" ∧ pyTake 7 (pyStrip l) ≠ "OBJECTS")
    (hsplit : fragmentTokens r conts = gtoks ++ o :: more)
    (hg : ∀ t ∈ gtoks,
      tokenGood (icuIgnoreSources icuroot) isFile (osDirname mkin_path) t ∨
        tokenIgnored (icuIgnoreSources icuroot) (osDirname mkin_path) t)
    (hmiss : tokenMissing (icuIgnoreSources icuroot) isFile (osDirname mkin_path) o) :
    get_sources icuroot mkin_path isFile (pre ++ objLine :: (conts ++ tail)) =
      Except.error (.exception
        (osJoin (osDirname mkin_path) o ++ " has no corresponding source file")) := by
  rw [get_sources_run icuroot mkin_path isFile tail hpre hobj hconts]
  rw [fragmentTokens] at hsplit
  rcases List.append_eq_append_iff.mp hsplit with ⟨a', ha1, ha2⟩ | ⟨c', hc1, hc2⟩
  · rw [procLine_ok (string_data_ne hr)
      (fun t ht => hg t (by rw [ha1]; exact List.mem_append_left _ ht)), except_bind_ok]
    rw [contsMapM_err _ isFile _ conts a' o more (fun l hl => (hconts l hl).1) ha2
      (fun t ht => hg t (by rw [ha1]; exact List.mem_append_right _ ht)) hmiss]
    rw [except_bind_err]
  · cases c' with
    | nil =>
      rw [List.append_nil] at hc1
      rw [List.nil_append] at hc2
      rw [procLine_ok (string_data_ne hr) (fun t ht => hg t (hc1 ▸ ht)), except_bind_ok,
        contsMapM_err _ isFile _ conts [] o more (fun l hl => (hconts l hl).1) hc2.symm
          (by simp) hmiss,
        except_bind_err]
    | cons o2 c2 =>
      rw [List.cons_append] at hc2
      injection hc2 with h1 h2
      subst h1
      rw [procLine_err (string_data_ne hr) hc1 hg hmiss, except_bind_err]

/-- Witness for C5: `missing.o` has no `.cpp`/`.c` sibling and is not
ignore-listed; the error names its resolved object path. -/
theorem get_sources_missing_source_witness :
    get_sources "/icu" "/icu/source/common/Makefile.in"
        (fun p => p == "/icu/source/common/a.cpp") ["OBJECTS = a.o missing.o", ""] =
      Except.error (.exception
        "/icu/source/common/missing.o has no corresponding source file") := by
  have h := get_sources_missing_source "/icu" "/icu/source/common/Makefile.in"
    (fun p => p == "/icu/source/common/a.cpp")
    [] "OBJECTS = a.o missing.o" "a.o missing.o" [] [""] ["a.o"] "missing.o" []
    (by decide) (by decide) (by decide) (by decide) (by decide) (by decide) (by decide)
  exact h.trans (by rfl)

/-- C8: for a directory path, `get_headers` returns exactly the entries
directly within it whose extension is `.h`, excluding the ignore-listed
toolutil headers; for a non-directory path it fails with the
invalid-directory error naming the path. -/
theorem get_headers_spec (icuroot headers_path : String) (isDir : String → Bool)
    (listing : List String) :
    (isDir headers_path = true →
      get_headers icuroot headers_path isDir listing =
        Except.ok (specHeaderList icuroot headers_path listing)) ∧
    (isDir headers_path = false →
      get_headers icuroot headers_path isDir listing =
        Except.error (.exception (headers_path ++ " is not a valid headers path"))) := by
  constructor
  · intro h
    simp only [get_headers, h]
    rw [if_neg (by simp), List.filter_filter]
    exact congrArg Except.ok (List.filter_congr (fun a _ => Bool.and_comm _ _))
  · intro h
    simp only [get_headers, h]
    rw [if_pos trivial, raiseExc1_invalid_headers]

/-- Witness for C8: a directory holding `{a.h, b.c, udbgutil.h}` (the last
ignore-listed) yields exactly `{a.h}`; a non-directory path errors. -/
theorem get_headers_spec_witness :
    get_headers "/icu" "/icu/source/tools/toolutil"
        (fun p => p == "/icu/source/tools/toolutil") ["a.h", "b.c", "udbgutil.h"] =
      Except.ok ["/icu/source/tools/toolutil/a.h"] ∧
    get_headers "/icu" "/icu/nodir" (fun _ => false) [] =
      Except.error (.exception "/icu/nodir is not a valid headers path") := by
  constructor
  · exact ((get_headers_spec "/icu" "/icu/source/tools/toolutil"
      (fun p => p == "/icu/source/tools/toolutil") ["a.h", "b.c", "udbgutil.h"]).1
        (by decide)).trans (by rfl)
  · exact ((get_headers_spec "/icu" "/icu/nodir" (fun _ => false) []).2 rfl).trans (by rfl)

/-- Splitting a list that does not contain the separator yields a single
piece. -/
theorem splitOnCharAux_no_sep {c : Char} :
    ∀ (l acc : List Char), c ∉ l → splitOnCharAux c l acc = [acc.reverse ++ l] := by
  intro l
  induction l with
  | nil => intro acc _; simp [splitOnCharAux]
  | cons x xs ih =>
    intro acc hmem
    have hx : x ≠ c := fun h => hmem (h ▸ List.mem_cons_self x xs)
    simp only [splitOnCharAux]
    rw [if_neg hx, ih (x :: acc) (fun hc => hmem (List.mem_cons_of_mem _ hc))]
    simp

/-- C9: `create_msvc_props` derives the version fields by splitting on a
dot: `"61.1"` gives major `"61"` and minor `"1"`, and a version string
containing no dot gives minor `"0"`. -/
theorem create_msvc_props_version_spec :
    create_msvc_props_version "61.1" = ("61", "1") ∧
    ∀ version : String, '.' ∉ version.data →
      (create_msvc_props_version version).2 = "0" := by
  constructor
  · rfl
  · intro v hv
    have hsplit : pySplitChar '.' v = [⟨v.data⟩] := by
      rw [pySplitChar, splitOnCharAux_no_sep _ _ hv]
      simp
    simp [create_msvc_props_version, hsplit]

/-- Witness for C9: the dotless version string `"61"`. -/
theorem create_msvc_props_version_spec_witness :
    ('.' ∉ ("61" : String).data) ∧ (create_msvc_props_version "61").2 = "0" :=
  ⟨by decide, create_msvc_props_version_spec.2 "61" (by decide)⟩

/-- C4: in both failure branches of the checksum verification — zero or
several manifest lines matching the archive filename, or a checksum
mismatch — the script evaluates a format string holding two `%s`
placeholders applied to a single argument (`"..." % x, y` binds `%` before
the comma), so a `TypeError` is raised instead of an `Exception` carrying
the intended diagnostic: the `checksum not found` and `checksum mismatch`
messages are never produced. -/
theorem download_icu_verify_format_bug
    (archive_file md5_url archive_path manifest checksum : String) :
    (((pySplitChar '\n' manifest).filter (matchesArchive archive_file)).length ≠ 1 →
      download_icu_verify archive_file md5_url archive_path manifest checksum =
        Except.error (.typeError "not enough arguments for format string")) ∧
    (∀ l : String,
      (pySplitChar '\n' manifest).filter (matchesArchive archive_file) = [l] →
      (pySplitChar ' ' l).headD "" ≠ checksum →
      download_icu_verify archive_file md5_url archive_path manifest checksum =
        Except.error (.typeError "not enough arguments for format string")) := by
  constructor
  · intro h
    simp only [download_icu_verify]
    rw [if_pos h, raiseExc2_not_found]
  · intro l hl hne
    simp only [download_icu_verify]
    rw [hl, if_neg (by simp)]
    rw [show (([l].headD "") : String) = l from rfl]
    rw [if_neg hne, raiseExc2_mismatch]

/-- Witness for C4: a manifest with no matching line, and a manifest whose
single matching line carries a different checksum. -/
theorem download_icu_verify_format_bug_witness :
    (((pySplitChar '\n' "no match").filter (matchesArchive "icu4c-60_2-src.tgz")).length ≠ 1 ∧
      download_icu_verify "icu4c-60_2-src.tgz" "u" "/tmp/a" "no match" "d" =
        Except.error (.typeError "not enough arguments for format string")) ∧
    ((pySplitChar '\n' "aaaa  icu4c-60_2-src.tgz").filter (matchesArchive "icu4c-60_2-src.tgz")
        = ["aaaa  icu4c-60_2-src.tgz"] ∧
      download_icu_verify "icu4c-60_2-src.tgz" "u" "/tmp/a" "aaaa  icu4c-60_2-src.tgz" "bbbb" =
        Except.error (.typeError "not enough arguments for format string")) := by
  constructor
  · exact ⟨by decide, (download_icu_verify_format_bug _ _ _ _ _).1 (by decide)⟩
  · exact ⟨by decide, (download_icu_verify_format_bug _ _ _ _ _).2
      "aaaa  icu4c-60_2-src.tgz" (by decide) (by decide)⟩

/-- C2 evidence: with exactly one matching manifest line, verification
succeeds and returns the archive path exactly when the line's first
space-separated token equals the computed digest; with a differing digest
the run fails, but with the formatting `TypeError`, not with an
`Exception` carrying a checksum-mismatch diagnostic. -/
theorem download_icu_verify_mismatch_behavior :
    download_icu_verify "icu4c-60_2-src.tgz" "https://ssl.icu-project.org/m.md5" "/tmp/icu.tgz"
        "d41d8cd98f00b204e9800998ecf8427e  icu4c-60_2-src.tgz"
        "d41d8cd98f00b204e9800998ecf8427e" =
      Except.ok "/tmp/icu.tgz" ∧
    download_icu_verify "icu4c-60_2-src.tgz" "https://ssl.icu-project.org/m.md5" "/tmp/icu.tgz"
        "d41d8cd98f00b204e9800998ecf8427e  icu4c-60_2-src.tgz"
        "00000000000000000000000000000000" =
      Except.error (.typeError "not enough arguments for format string") :=
  ⟨rfl, rfl⟩

/-- C3 evidence: with zero matching manifest lines, and likewise with two,
the run fails — but with the formatting `TypeError`, never with an
`Exception` carrying the `checksum not found` diagnostic naming the
archive. -/
theorem download_icu_verify_ambiguous_behavior :
    download_icu_verify "icu4c-60_2-src.tgz" "https://ssl.icu-project.org/m.md5" "/tmp/icu.tgz"
        "unrelated line" "d41d8cd98f00b204e9800998ecf8427e" =
      Except.error (.typeError "not enough arguments for format string") ∧
    download_icu_verify "icu4c-60_2-src.tgz" "https://ssl.icu-project.org/m.md5" "/tmp/icu.tgz"
        "aaaa  icu4c-60_2-src.tgz\nbbbb  icu4c-60_2-src.tgz"
        "d41d8cd98f00b204e9800998ecf8427e" =
      Except.error (.typeError "not enough arguments for format string") :=
  ⟨rfl, rfl⟩
